import Mathlib

/-!
Shallow embedding of the `.cid` CPython build pipeline of this repository
(`build.py`, `python_builder.py`, `linux_python_builder.py`,
`darwin_python_builder.py`, `mingw_python_builder.py`) together with proofs
about the behaviour of the embedded code.

Conventions used throughout:
* Python exceptions are modelled by the `PyError` type and fallible code
  returns `Except PyError _`.
* `os.environ` and environment dictionaries are association lists
  (`EnvMap`); `dict.update` is `envUpdate`.
* Filesystem side effects and external process invocations are recorded as
  explicit event lists, in the order the source performs them.
* `pathlib`'s `/` operator is `pjoin` on plain strings; `Path.resolve()` is
  the identity on the already-absolute abstract paths used here.
-/

namespace PyBuild

/-- Python exception values raised by the embedded code. -/
inductive PyError where
  | attrError (name : String)
  | valueError (msg : String)
  | fileNotFound (msg : String)
  | calledProcessError (stderr : String)
  | exc (msg : String)
deriving DecidableEq, Repr

/-- Log records emitted through the `logging` module. -/
inductive LogEvent where
  | info (msg : String)
  | warning (msg : String)
  | error (msg : String)
deriving DecidableEq, Repr

/-- Join a list of words with single spaces, as Python's `' '.join`. -/
def joinWords (ws : List String) : String := String.intercalate " " ws

/-- Captured result of one `subprocess.run` invocation: the external
process's exit code and its captured textual output streams. -/
structure ProcResult where
  exitCode : Int
  stdout : String
  stderr : String
deriving DecidableEq, Repr

deriving instance DecidableEq for Except

/-- What one call to `run_command` produced: the log records it wrote, its
outcome (`CalledProcessError` propagates on non-zero exit), and how many
subprocesses it spawned. -/
structure RunOutcome where
  log : List LogEvent
  result : Except PyError Unit
  spawns : Nat
deriving DecidableEq, Repr

/-- Embedding of `run_command` (`python_builder.py` lines 39-50).  The
command line is logged first; `subprocess.run(..., check=True)` raises
`CalledProcessError` carrying the captured stderr when the exit code is
non-zero, in which case the handler logs the failure and re-raises; on
success the captured stdout/stderr are logged when non-empty.  Exactly one
subprocess is spawned; there is no retry. -/
def run_command (cmd : List String) (res : ProcResult) : RunOutcome :=
  let pre := LogEvent.info ("Command: " ++ joinWords cmd)
  if res.exitCode = 0 then
    { log := [pre]
        ++ (if res.stdout ≠ "" then
              [LogEvent.info ("Command output: " ++ res.stdout.trim)] else [])
        ++ (if res.stderr ≠ "" then
              [LogEvent.warning ("Command error output: " ++ res.stderr.trim)] else []),
      result := Except.ok (),
      spawns := 1 }
  else
    { log := [pre,
        LogEvent.error ("Command failed: " ++ joinWords cmd ++ ". Error: " ++ res.stderr.trim)],
      result := Except.error (PyError.calledProcessError res.stderr),
      spawns := 1 }

/-- C6: for every external command invocation through `run_command`, the
call raises a propagated failure carrying the captured stderr exactly when
the subprocess exits non-zero, the full command line is logged before
execution and the captured output after (failure output via the error
record), and the command is never retried (exactly one subprocess spawn). -/
theorem C6_run_command_contract (cmd : List String) (res : ProcResult) :
    ((run_command cmd res).result = Except.error (PyError.calledProcessError res.stderr)
        ↔ res.exitCode ≠ 0)
    ∧ (run_command cmd res).log.head? =
        some (LogEvent.info ("Command: " ++ joinWords cmd))
    ∧ (res.exitCode ≠ 0 →
        (run_command cmd res).log =
          [LogEvent.info ("Command: " ++ joinWords cmd),
           LogEvent.error ("Command failed: " ++ joinWords cmd ++ ". Error: " ++ res.stderr.trim)])
    ∧ (run_command cmd res).spawns = 1 := by
  unfold run_command
  by_cases h : res.exitCode = 0 <;> simp [h]

/-- Witness for C6 at a concrete failing command. -/
theorem C6_run_command_contract_witness :
    ((run_command ["make", "install"] ⟨2, "", "no rule"⟩).result
        = Except.error (PyError.calledProcessError "no rule")
      ↔ (2 : Int) ≠ 0)
    ∧ (run_command ["make", "install"] ⟨2, "", "no rule"⟩).log.head? =
        some (LogEvent.info ("Command: " ++ joinWords ["make", "install"]))
    ∧ ((2 : Int) ≠ 0 →
        (run_command ["make", "install"] ⟨2, "", "no rule"⟩).log =
          [LogEvent.info ("Command: " ++ joinWords ["make", "install"]),
           LogEvent.error ("Command failed: " ++ joinWords ["make", "install"]
             ++ ". Error: " ++ ("no rule" : String).trim)])
    ∧ (run_command ["make", "install"] ⟨2, "", "no rule"⟩).spawns = 1 :=
  C6_run_command_contract ["make", "install"] ⟨2, "", "no rule"⟩

/-- Join two path components, as `pathlib`'s `/` or `os.path.join` on the
absolute abstract paths used here. -/
def pjoin (a b : String) : String := a ++ "/" ++ b

/-- Attribute lookup on an object: `some` when the attribute was assigned,
otherwise the access raises `AttributeError` naming the attribute. -/
def getattrOpt (v : Option String) (name : String) : Except PyError String :=
  match v with
  | some s => Except.ok s
  | none => Except.error (PyError.attrError name)

/-- The `argparse` namespace fields that `BuildConfig.__init__` and the
builders read.  A field is `none` when the parser in question never defines
the corresponding option, so that reading it raises `AttributeError`. -/
structure ArgsNS where
  repo_root : Option String
  out_path : Option String
  lldb_py_version : Option String
  lldb_py_detailed_version : Option String
  mingw_triple : Option String
  target_os : Option String
  target_arch : Option String
deriving DecidableEq, Repr

/-- Embedding of the parser built in `build.py` lines 29-36: it defines only
`--repo-root`, `--out-path`, `--lldb-py-version`, `--target-os` and
`--target-arch`; it never defines `--lldb-py-detailed-version` or
`--mingw-triple`, so those namespace attributes are absent. -/
def generic_cli_args (repoRoot outPath lldbVer targetOS targetArch : String) : ArgsNS :=
  { repo_root := some repoRoot
    out_path := some outPath
    lldb_py_version := some lldbVer
    lldb_py_detailed_version := none
    mingw_triple := none
    target_os := some targetOS
    target_arch := some targetArch }

/-- Embedding of the `BuildConfig` record (`python_builder.py` lines 52-58). -/
structure BuildConfig where
  REPOROOT_DIR : String
  OUT_PATH : String
  LLDB_PY_VERSION : String
  LLDB_PY_DETAILED_VERSION : String
  MINGW_TRIPLE : String
deriving DecidableEq, Repr

/-- Embedding of `BuildConfig.__init__` (`python_builder.py` lines 52-58):
it reads the five namespace attributes in source order, raising
`AttributeError` at the first absent one. -/
def BuildConfig.ofArgs (args : ArgsNS) : Except PyError BuildConfig := do
  let rr ← getattrOpt args.repo_root "repo_root"
  let op ← getattrOpt args.out_path "out_path"
  let v ← getattrOpt args.lldb_py_version "lldb_py_version"
  let dv ← getattrOpt args.lldb_py_detailed_version "lldb_py_detailed_version"
  let mt ← getattrOpt args.mingw_triple "mingw_triple"
  Except.ok ⟨rr, op, v, dv, mt⟩

/-- Filesystem mutations performed by the embedded code, in order. -/
inductive FsEvent where
  | rmtree (path : String)
  | mkdir (path : String)
  | unlink (path : String)
  | untar (dest : String)
deriving DecidableEq, Repr

/-- Observable outcome of one run of `main` in `build.py`: the filesystem
events on the output path, the error caught and logged with a full trace by
the `except Exception` handler (lines 59-60, via `logging.exception`), any
error that escapes `main` uncaught, and the resulting process exit code. -/
structure MainOutcome where
  fsEvents : List FsEvent
  caughtError : Option PyError
  uncaughtError : Option PyError
  exitCode : Nat
deriving DecidableEq, Repr

/-- Embedding of the body of `main` (`build.py` lines 39-60) from the point
a `BuildConfig` exists.  Lines 40-43 delete the output path when present and
recreate it; only then does the `try` block dispatch on `--target-os`.
`runResult` abstracts what constructing the resolved platform builder and
calling its `build()` raises, if anything; the `else` branch raises
`ValueError` for an unsupported target OS.  Every exception raised inside
the `try` block is caught by `except Exception`, logged via
`logging.exception` (a full trace), and swallowed, so `main` returns
normally and the process exits 0. -/
def main_dispatch (cfg : BuildConfig) (outPathExists : Bool) (targetOS : String)
    (runResult : Except PyError Unit) : MainOutcome :=
  let fs := (if outPathExists then [FsEvent.rmtree cfg.OUT_PATH] else [])
              ++ [FsEvent.mkdir cfg.OUT_PATH]
  if targetOS = "linux" ∨ targetOS = "mingw" ∨ targetOS = "darwin" then
    match runResult with
    | Except.ok _ =>
        { fsEvents := fs, caughtError := none, uncaughtError := none, exitCode := 0 }
    | Except.error e =>
        { fsEvents := fs, caughtError := some e, uncaughtError := none, exitCode := 0 }
  else
    { fsEvents := fs
      caughtError := some (PyError.valueError ("Unsupported target OS: " ++ targetOS))
      uncaughtError := none
      exitCode := 0 }

/-- Embedding of `main` (`build.py` lines 28-60) as invoked from the command
line: the generic parser's namespace is built, then `BuildConfig(args)` runs
at line 37, before the output-path recreation at lines 40-43 and outside the
`try` block, so an error raised there propagates uncaught (Python then exits
with a non-zero status, modelled as 1). -/
def build_py_main (repoRoot outPath lldbVer targetOS targetArch : String)
    (outPathExists : Bool) (runResult : Except PyError Unit) : MainOutcome :=
  match BuildConfig.ofArgs (generic_cli_args repoRoot outPath lldbVer targetOS targetArch) with
  | Except.error e =>
      { fsEvents := [], caughtError := none, uncaughtError := some e, exitCode := 1 }
  | Except.ok cfg => main_dispatch cfg outPathExists targetOS runResult

/-- C2, counterexample: invoking the CLI entry point with
`--target-os unknown` does not fail with the unsupported-configuration
error: `BuildConfig.__init__` reads `args.lldb_py_detailed_version`, an
option the generic parser never defines, so the run dies earlier with an
`AttributeError` (and, the target-OS dispatch being unreachable, the
descriptive `ValueError` is never raised). -/
theorem C2_counterexample :
    build_py_main "." "./out" "3.11.4" "unknown" "x86" true (Except.ok ()) =
      { fsEvents := []
        caughtError := none
        uncaughtError := some (PyError.attrError "lldb_py_detailed_version")
        exitCode := 1 }
    ∧ PyError.attrError "lldb_py_detailed_version"
        ≠ PyError.valueError "Unsupported target OS: unknown" := by
  constructor
  · rfl
  · decide

/-- C2, amended: every invocation of the generic CLI entry point — whatever
the `--target-os` value — fails immediately while constructing the build
configuration, with an `AttributeError` for the undeclared
detailed-version option, and no filesystem mutation occurs before that
failure.  The unsupported-target-OS check is unreachable from the CLI; in
the dispatch code itself the output path is deleted (when present) and
recreated before the check runs, and the unsupported-configuration
`ValueError` raised there is caught by the top-level handler after those
mutations. -/
theorem C2_unsupported_os_behaviour (repoRoot outPath lldbVer targetOS targetArch : String)
    (outPathExists : Bool) (r : Except PyError Unit) (cfg : BuildConfig)
    (hos : ¬ (targetOS = "linux" ∨ targetOS = "mingw" ∨ targetOS = "darwin")) :
    build_py_main repoRoot outPath lldbVer targetOS targetArch outPathExists r =
      { fsEvents := []
        caughtError := none
        uncaughtError := some (PyError.attrError "lldb_py_detailed_version")
        exitCode := 1 }
    ∧ (main_dispatch cfg outPathExists targetOS r).fsEvents =
        (if outPathExists then [FsEvent.rmtree cfg.OUT_PATH] else [])
          ++ [FsEvent.mkdir cfg.OUT_PATH]
    ∧ (main_dispatch cfg outPathExists targetOS r).caughtError =
        some (PyError.valueError ("Unsupported target OS: " ++ targetOS)) := by
  refine ⟨rfl, ?_, ?_⟩ <;> simp [main_dispatch, hos]

/-- Witness for the amended C2 at `--target-os unknown`. -/
theorem C2_unsupported_os_behaviour_witness :
    build_py_main "." "./out" "3.11.4" "unknown" "x86" true (Except.ok ()) =
      { fsEvents := []
        caughtError := none
        uncaughtError := some (PyError.attrError "lldb_py_detailed_version")
        exitCode := 1 }
    ∧ (main_dispatch ⟨".", "./out", "3.11.4", "3.11.4.1", "t"⟩ true "unknown"
        (Except.ok ())).fsEvents =
        (if true then [FsEvent.rmtree "./out"] else []) ++ [FsEvent.mkdir "./out"]
    ∧ (main_dispatch ⟨".", "./out", "3.11.4", "3.11.4.1", "t"⟩ true "unknown"
        (Except.ok ())).caughtError =
        some (PyError.valueError ("Unsupported target OS: " ++ "unknown")) :=
  C2_unsupported_os_behaviour "." "./out" "3.11.4" "unknown" "x86" true (Except.ok ())
    ⟨".", "./out", "3.11.4", "3.11.4.1", "t"⟩ (by decide)

/-- C3, counterexample: a fatal error raised during builder construction or
a pipeline stage does not propagate out of the program and the process does
not exit non-zero — the `except Exception` handler in `main` catches it,
logs it with a full trace, and `main` returns normally (exit code 0). -/
theorem C3_counterexample :
    main_dispatch ⟨".", "./out", "3.11.4", "3.11.4.1", "t"⟩ true "linux"
        (Except.error (PyError.valueError "No such source directory")) =
      { fsEvents := [FsEvent.rmtree "./out", FsEvent.mkdir "./out"]
        caughtError := some (PyError.valueError "No such source directory")
        uncaughtError := none
        exitCode := 0 } := by rfl

/-- C3, amended: for every run in which a fatal error is raised during
builder construction or any pipeline stage, the top-level
`except Exception` handler in `main` catches the error, logs it with a full
trace via `logging.exception`, and the process exits with status zero; the
error does not propagate out of the program. -/
theorem C3_fatal_errors_caught (cfg : BuildConfig) (outPathExists : Bool)
    (targetOS : String) (e : PyError)
    (hos : targetOS = "linux" ∨ targetOS = "mingw" ∨ targetOS = "darwin") :
    (main_dispatch cfg outPathExists targetOS (Except.error e)).caughtError = some e
    ∧ (main_dispatch cfg outPathExists targetOS (Except.error e)).uncaughtError = none
    ∧ (main_dispatch cfg outPathExists targetOS (Except.error e)).exitCode = 0 := by
  refine ⟨?_, ?_, ?_⟩ <;> simp [main_dispatch, hos]

/-- Witness for the amended C3 at a concrete failing Linux run. -/
theorem C3_fatal_errors_caught_witness :
    (main_dispatch ⟨".", "./out", "3.11.4", "3.11.4.1", "t"⟩ true "linux"
        (Except.error (PyError.calledProcessError "configure: error"))).caughtError =
      some (PyError.calledProcessError "configure: error")
    ∧ (main_dispatch ⟨".", "./out", "3.11.4", "3.11.4.1", "t"⟩ true "linux"
        (Except.error (PyError.calledProcessError "configure: error"))).uncaughtError = none
    ∧ (main_dispatch ⟨".", "./out", "3.11.4", "3.11.4.1", "t"⟩ true "linux"
        (Except.error (PyError.calledProcessError "configure: error"))).exitCode = 0 :=
  C3_fatal_errors_caught ⟨".", "./out", "3.11.4", "3.11.4.1", "t"⟩ true "linux"
    (PyError.calledProcessError "configure: error") (Or.inl rfl)

/-- The methods and filesystem actions `PythonBuilder.build` performs, in
order, at the granularity of the pipeline's stages. -/
inductive Call where
  | deps_build
  | apply_patches
  | rm_build_dir
  | rm_install_dir
  | mk_build_dir
  | mk_install_dir
  | configure
  | install
  | post_build
  | prepare_for_package
  | package_archive
deriving DecidableEq, Repr

/-- Embedding of `PythonBuilder.build` (`python_builder.py` lines 172-186)
together with `_pre_build` (lines 148-150, which calls `_deps_build` then
`_apply_patches`).  `hasBuildDir` models `hasattr(self, '_build_dir')`,
`installIsPath` models `isinstance(self._install_dir, Path)` (the base
class initialises `_install_dir` to the empty string), and the other two
flags model the `exists()` checks.  After `_configure()` and `_install()`
the method returns: nothing else is called. -/
def PythonBuilder.build_calls
    (hasBuildDir buildDirExists installIsPath installDirExists : Bool) : List Call :=
  [Call.deps_build, Call.apply_patches]
    ++ (if hasBuildDir && buildDirExists then [Call.rm_build_dir] else [])
    ++ (if installIsPath && installDirExists then [Call.rm_install_dir] else [])
    ++ (if hasBuildDir then [Call.mk_build_dir] else [])
    ++ (if installIsPath then [Call.mk_install_dir] else [])
    ++ [Call.configure, Call.install]

/-- C1: for every combination of directory states, `PythonBuilder.build`
performs dependency build, patch application, directory staging, configure
and install in that fixed order and then terminates: it never invokes
`_post_build`, `prepare_for_package` or `package`, so no post-processing is
performed and no archive is produced by `build()` — its last action is the
install step. -/
theorem C1_build_never_packages (a b c d : Bool) :
    Call.package_archive ∉ PythonBuilder.build_calls a b c d
    ∧ Call.prepare_for_package ∉ PythonBuilder.build_calls a b c d
    ∧ Call.post_build ∉ PythonBuilder.build_calls a b c d
    ∧ (PythonBuilder.build_calls a b c d).getLast? = some Call.install
    ∧ (PythonBuilder.build_calls a b c d).take 2 = [Call.deps_build, Call.apply_patches] := by
  cases a <;> cases b <;> cases c <;> cases d <;> decide

/-- External commands attempted by `PythonBuilder._clean_patches`
(`python_builder.py` lines 143-146). -/
def git_reset_cmd : List String := ["git", "reset", "--hard", "HEAD"]

/-- Second command of `_clean_patches`: clean untracked files while
preserving the `.cid` tooling directory. -/
def git_clean_cmd : List String := ["git", "clean", "-df", "--exclude=.cid"]

/-- Embedding of `PythonBuilder.__init__` (`python_builder.py` lines
66-81): after recording the configuration fields it unconditionally calls
`_clean_patches()`, so these are the external commands every construction
attempts, before any subclass code runs. -/
def PythonBuilder.init_cmds : List (List String) := [git_reset_cmd, git_clean_cmd]

/-- Embedding of `LinuxPythonBuilder.__init__` (`linux_python_builder.py`
lines 25-38): `super().__init__` runs first (emitting the base commands),
then the source directory and the system GCC are validated, raising
`ValueError` when absent. -/
def LinuxPythonBuilder.init (sourceDirOk gccOk : Bool) :
    List (List String) × Except PyError Unit :=
  (PythonBuilder.init_cmds,
    if ¬ sourceDirOk then Except.error (PyError.valueError "No such source directory")
    else if ¬ gccOk then Except.error (PyError.valueError "GCC not found")
    else Except.ok ())

/-- Embedding of `DarwinPythonBuilder.__init__` (`darwin_python_builder.py`
lines 25-28): base construction plus attribute assignments, no validation. -/
def DarwinPythonBuilder.init : List (List String) × Except PyError Unit :=
  (PythonBuilder.init_cmds, Except.ok ())

/-- Embedding of `MinGWPythonBuilder.__init__` in `mingw_python_builder.py`
(lines 26-35): base construction first, then the MinGW sysroot and the
source directory are validated in that order. -/
def MinGWPythonBuilder.init (mingwInstallOk sourceDirOk : Bool) :
    List (List String) × Except PyError Unit :=
  (PythonBuilder.init_cmds,
    if ¬ mingwInstallOk then Except.error (PyError.valueError "No such directory")
    else if ¬ sourceDirOk then Except.error (PyError.valueError "No such directory")
    else Except.ok ())

/-- Embedding of the `MinGWPythonBuilder.__init__` variant defined inside
`python_builder.py` (lines 299-315): same shape — base construction first,
then directory validation. -/
def LegacyMinGWPythonBuilder.init (mingwInstallOk sourceDirOk : Bool) :
    List (List String) × Except PyError Unit :=
  (PythonBuilder.init_cmds,
    if ¬ mingwInstallOk then Except.error (PyError.valueError "No such directory")
    else if ¬ sourceDirOk then Except.error (PyError.valueError "No such directory")
    else Except.ok ())

/-- C10: constructing any of the four platform builders attempts exactly
the version-control hard reset and clean of the shared source checkout
(preserving only the `.cid` tooling directory), whatever the validation
outcome — in particular the commands are attempted even when construction
is subsequently rejected with `ValueError`, and before any pipeline stage
(the stages of `build_calls`, including the marker-consulting
`apply_patches`) can run. -/
theorem C10_construction_resets_source (sOk gOk mOk : Bool) :
    (LinuxPythonBuilder.init sOk gOk).1 = [git_reset_cmd, git_clean_cmd]
    ∧ DarwinPythonBuilder.init.1 = [git_reset_cmd, git_clean_cmd]
    ∧ (MinGWPythonBuilder.init mOk sOk).1 = [git_reset_cmd, git_clean_cmd]
    ∧ (LegacyMinGWPythonBuilder.init mOk sOk).1 = [git_reset_cmd, git_clean_cmd]
    ∧ "--exclude=.cid" ∈ git_clean_cmd
    ∧ (LinuxPythonBuilder.init false gOk).2 =
        Except.error (PyError.valueError "No such source directory") := by
  refine ⟨rfl, rfl, rfl, rfl, by decide, rfl⟩

/-- State of the libffi scratch directory under the output path. -/
structure LibffiOutState where
  libffiDirExists : Bool
deriving DecidableEq, Repr

/-- Everything one call to `_extract_libffi` produces: its return value or
exception, the resulting scratch-directory state, and the filesystem
events it performed, in order. -/
structure ExtractOutcome where
  result : Except PyError String
  state : LibffiOutState
  fsEvents : List FsEvent
deriving DecidableEq, Repr

/-- Embedding of `MinGWPythonBuilder._extract_libffi` (`python_builder.py`
lines 317-352).  `globMatches` models the result of
`glob.glob(<repoRoot>/third_party/libffi/libffi-*.tar.gz)` and `tarMembers`
the names returned by `tar.getmembers()`.  When the glob finds nothing the
method logs an error and raises `FileNotFoundError` before touching the
`out/libffi` scratch directory; otherwise the scratch directory is removed
when present, recreated, the archive extracted into it, and the first
member's name determines the inner directory (raising when the archive has
no members). -/
def extract_libffi (outDir : String) (globMatches : List String)
    (st : LibffiOutState) (tarMembers : List String) : ExtractOutcome :=
  if globMatches.isEmpty then
    { result := Except.error (PyError.fileNotFound "No libffi-*.tar.gz file found.")
      state := st
      fsEvents := [] }
  else
    let dir := pjoin outDir "libffi"
    let ev := (if st.libffiDirExists then [FsEvent.rmtree dir] else [])
                ++ [FsEvent.mkdir dir, FsEvent.untar dir]
    match tarMembers with
    | [] =>
        { result := Except.error (PyError.exc "Failed to get inner directory of libffi tarball.")
          state := { libffiDirExists := true }
          fsEvents := ev }
    | m :: _ =>
        { result := Except.ok (pjoin dir m)
          state := { libffiDirExists := true }
          fsEvents := ev }

/-- External commands run by the MinGW dependency build after a successful
libffi extraction (`mingw_python_builder.py` lines 127-144, identical to
`python_builder.py` lines 407-424): libffi's `configure`, `make -j16`, and
`make install`. -/
def mingw_deps_cmds (depsDir : String) : List (List String) :=
  [["./configure",
    "--prefix=" ++ pjoin depsDir "ffi",
    "--enable-shared",
    "--build=x86_64-pc-linux-gnu",
    "--host=x86_64-w64-mingw32",
    "--disable-symvers",
    "--disable-docs"],
   ["make", "-j16"],
   ["make", "install"]]

/-- Embedding of `MinGWPythonBuilder._deps_build`
(`mingw_python_builder.py` lines 104-144 and `python_builder.py` lines
384-424): `_extract_libffi` runs first; when it raises, the error
propagates and no further command runs; otherwise the three libffi build
commands are issued in the extracted directory. -/
def mingw_deps_build (outDir depsDir : String) (globMatches : List String)
    (st : LibffiOutState) (tarMembers : List String) :
    Except PyError Unit × List FsEvent × List (List String) :=
  let ex := extract_libffi outDir globMatches st tarMembers
  match ex.result with
  | Except.error e => (Except.error e, ex.fsEvents, [])
  | Except.ok _ => (Except.ok (), ex.fsEvents, mingw_deps_cmds depsDir)

/-- C7: when no file matches the libffi version glob, the MinGW dependency
build fails with the artifact-not-found error before any directory under
the output path is mutated: the libffi scratch directory is neither
deleted nor created (no filesystem event at all), the scratch-directory
state is unchanged, and no build command is issued. -/
theorem C7_missing_libffi_fails_before_mutation (outDir depsDir : String)
    (st : LibffiOutState) (tarMembers : List String) :
    (extract_libffi outDir [] st tarMembers).result =
        Except.error (PyError.fileNotFound "No libffi-*.tar.gz file found.")
    ∧ (extract_libffi outDir [] st tarMembers).fsEvents = []
    ∧ (extract_libffi outDir [] st tarMembers).state = st
    ∧ mingw_deps_build outDir depsDir [] st tarMembers =
        (Except.error (PyError.fileNotFound "No libffi-*.tar.gz file found."), [], []) :=
  ⟨rfl, rfl, rfl, rfl⟩

/-- Embedding of `PythonBuilder._install` (`python_builder.py` lines
188-192): `num_jobs = os.cpu_count() or 8` under Python truthiness (`None`
and `0` both fall back to 8), then `make -j<N> install` is run in the build
directory. -/
def install_cmd (cpuCount : Option Nat) : List String :=
  let numJobs := match cpuCount with
    | none => 8
    | some k => if k = 0 then 8 else k
  ["make", "-j" ++ toString numJobs, "install"]

/-- An argument list carries an explicit job-count flag when one of its
words starts with `-j`. -/
def has_job_flag (cmd : List String) : Bool :=
  cmd.any (fun a => a.data.take 2 == ['-', 'j'])

/-- C8, counterexample: the install stage is not the only step of the
pipeline whose parallelism is explicit — the MinGW dependency build issues
`make -j16`, an explicit job-count flag on a command that is not the
install command (and the dependency-build step is three external calls,
not a single one). -/
theorem C8_counterexample :
    ["make", "-j16"] ∈ mingw_deps_cmds "/out/python-windows-deps"
    ∧ has_job_flag ["make", "-j16"] = true
    ∧ (mingw_deps_cmds "/out/python-windows-deps").length = 3
    ∧ ["make", "-j16"] ≠ install_cmd none
    ∧ ["make", "-j16"] ≠ install_cmd (some 16) := by
  refine ⟨?_, by decide, rfl, by decide, by decide⟩
  simp [mingw_deps_cmds]

/-- C8, amended: the install stage invokes `make -j<N> install` with N the
detected CPU count, falling back to 8 when detection yields nothing — but
it is not the only explicitly parallel step: the MinGW dependency build
also invokes `make` with an explicit job count of 16. -/
theorem C8_install_parallelism (n : Nat) (depsDir : String) (h : n ≠ 0) :
    install_cmd none = ["make", "-j8", "install"]
    ∧ install_cmd (some n) = ["make", "-j" ++ toString n, "install"]
    ∧ ["make", "-j16"] ∈ mingw_deps_cmds depsDir
    ∧ has_job_flag (install_cmd none) = true := by
  exact ⟨rfl, by simp [install_cmd, h], by simp [mingw_deps_cmds], by decide⟩

/-- Witness for the amended C8 at a 4-CPU host. -/
theorem C8_install_parallelism_witness :
    (4 : Nat) ≠ 0
    ∧ (install_cmd none = ["make", "-j8", "install"]
        ∧ install_cmd (some 4) = ["make", "-j" ++ toString 4, "install"]
        ∧ ["make", "-j16"] ∈ mingw_deps_cmds "/out/python-windows-deps"
        ∧ has_job_flag (install_cmd none) = true) :=
  ⟨by decide, C8_install_parallelism 4 "/out/python-windows-deps" (by decide)⟩

/-- Steps of a packaging routine, in order. -/
inductive PkgStep where
  | unlinkArchive (path : String)
  | runTar (cmd : List String)
deriving DecidableEq, Repr

/-- Archive path produced by the `package` method of the
`MinGWPythonBuilder` variant in `python_builder.py` (lines 454-459). -/
def mingw_archive_name (outDir version : String) : String :=
  pjoin outDir ("python-mingw-x86-" ++ version ++ ".tar.gz")

/-- The `tar` command built by `package` (`python_builder.py` lines
460-467): compress the install-tree entries, excluding bytecode caches and
rewriting member paths under `python/windows-x86/<lldb version>/`. -/
def mingw_tar_cmd (archive lldbVer : String) (entries : List String) : List String :=
  ["tar", "-czf", archive, "--exclude=__pycache__", "--transform",
   "s,^,python/windows-x86/" ++ lldbVer ++ "/,"] ++ entries

/-- Embedding of `MinGWPythonBuilder.package` (`python_builder.py` lines
454-468): any pre-existing archive of the same name is unlinked first, then
the tar command is run in the install directory. -/
def mingw_package (outDir version lldbVer : String) (archiveExists : Bool)
    (entries : List String) : List PkgStep :=
  (if archiveExists then [PkgStep.unlinkArchive (mingw_archive_name outDir version)] else [])
    ++ [PkgStep.runTar (mingw_tar_cmd (mingw_archive_name outDir version) lldbVer entries)]

/-- Modelled from the spec: the generic packaging step
`PythonBuilder._package(glibc_version)` that `LinuxPythonBuilder._post_build`
invokes (`linux_python_builder.py` lines 130-134) is repository code not
under `src/` — the base class in `src/` does not define it.  Per spec
sections 6 and 8 it writes `python-<package>[-GLIBC<ver>]-<version>.tar.gz`
into the output directory, where the package name derives from target
OS/arch, the GLIBC tag is present exactly when a C-library version was
detected, and `<version>` is the detailed Python version. -/
def generic_archive_name (pkgName : String) (glibc : Option String) (version : String) :
    String :=
  "python-" ++ pkgName
    ++ (match glibc with | some g => "-GLIBC" ++ g | none => "")
    ++ "-" ++ version ++ ".tar.gz"

/-- Modelled from the spec: the generic packaging step deletes any
pre-existing archive of the same name before writing the new one (spec
section 4.2, stage 8). -/
def generic_package (outDir pkgName : String) (glibc : Option String) (version : String)
    (archiveExists : Bool) : List PkgStep :=
  (if archiveExists then
      [PkgStep.unlinkArchive (pjoin outDir (generic_archive_name pkgName glibc version))]
    else [])
    ++ [PkgStep.runTar ["tar", "-czf", pjoin outDir (generic_archive_name pkgName glibc version)]]

/-- C9: archive naming is deterministic per platform: for target OS linux
with detected C-library version 2.35 the archive filename is
`python-linux-x86-GLIBC2.35-<version>.tar.gz`; for target OS mingw it is
`python-mingw-x86-<version>.tar.gz` with no GLIBC tag; and in both
packaging routines a pre-existing archive of the same name is deleted
before the new archive is written. -/
theorem C9_archive_naming (outDir version lldbVer : String) (entries : List String) :
    generic_archive_name "linux-x86" (some "2.35") version =
        "python-linux-x86-GLIBC2.35-" ++ version ++ ".tar.gz"
    ∧ mingw_archive_name outDir version =
        outDir ++ "/" ++ ("python-mingw-x86-" ++ version ++ ".tar.gz")
    ∧ (mingw_package outDir version lldbVer true entries).head? =
        some (PkgStep.unlinkArchive (mingw_archive_name outDir version))
    ∧ (generic_package outDir "linux-x86" (some "2.35") version true).head? =
        some (PkgStep.unlinkArchive
          (pjoin outDir ("python-linux-x86-GLIBC2.35-" ++ version ++ ".tar.gz"))) := by
  refine ⟨?_, rfl, rfl, ?_⟩
  · simp [generic_archive_name, String.append_assoc]
  · simp [generic_package, generic_archive_name, pjoin, String.append_assoc]

/-- Environment dictionaries: association lists from variable name to
value, looked up by first match. -/
abbrev EnvMap := List (String × String)

/-- Dictionary lookup. -/
def envLookup (m : EnvMap) (k : String) : Option String :=
  (m.find? (fun p => p.1 == k)).map (fun p => p.2)

/-- Python's `dict.update`: keys of `upd` overwrite, all other keys keep
their previous value. -/
def envUpdate (m : EnvMap) (upd : EnvMap) : EnvMap :=
  upd ++ m.filter (fun p => upd.all (fun q => q.1 != p.1))

/-- The virtual members the base `_env` property reads, resolved per
concrete class.  Each is the result the corresponding Python property
access yields on that class: `Except.error (attrError _)` when the access
reads an attribute the class never assigns. -/
structure EnvVirtuals where
  clang_toolchain_dir : Except PyError String
  cc : Except PyError String
  cxx : Except PyError String
  strip : Except PyError String
  cflags : Except PyError (List String)
  cxxflags : Except PyError (List String)
  ldflags : Except PyError (List String)
  rcflags : Except PyError (List String)

/-- Embedding of the base `PythonBuilder._env` property (`python_builder.py`
lines 116-137): copy `os.environ`, compute the clang bin directory from
`_clang_toolchain_dir` (line 118, before the dictionary literal), then
overlay the toolchain/flag keys; `LIBS` is the fixed string `-lffi`.  The
first failing attribute access aborts the whole composition with its
`AttributeError`. -/
def PythonBuilder.env_base (v : EnvVirtuals) (ambient : EnvMap) : Except PyError EnvMap := do
  let ctd ← v.clang_toolchain_dir
  let clangBinDir := pjoin ctd "bin"
  let cc ← v.cc
  let cxx ← v.cxx
  let strp ← v.strip
  let cflags ← v.cflags
  let cxxflags ← v.cxxflags
  let ldflags ← v.ldflags
  let rcflags ← v.rcflags
  Except.ok (envUpdate ambient
    [("CC", cc), ("CXX", cxx),
     ("WINDRES", pjoin clangBinDir "llvm-windres"),
     ("AR", pjoin clangBinDir "llvm-ar"),
     ("READELF", pjoin clangBinDir "llvm-readelf"),
     ("LD", pjoin clangBinDir "ld.lld"),
     ("DLLTOOL", pjoin clangBinDir "llvm-dlltoo"),
     ("RANLIB", pjoin clangBinDir "llvm-ranlib"),
     ("STRIP", strp),
     ("CFLAGS", joinWords cflags),
     ("CXXFLAGS", joinWords cxxflags),
     ("LDFLAGS", joinWords ldflags),
     ("RCFLAGS", joinWords rcflags),
     ("CPPFLAGS", joinWords cflags),
     ("LIBS", "-lffi")])

/-- The clang cross-toolchain directory both MinGW builder variants derive
from the prebuilts path (`python_builder.py` lines 304-305,
`mingw_python_builder.py` lines 30-31). -/
def mingw_clang_toolchain_dir (repoRoot : String) : String :=
  pjoin (pjoin repoRoot "prebuilts") "mingw-w64/ohos/linux-x86_64/clang-mingw"

/-- The `_cflags` property shared by both MinGW builder variants
(`python_builder.py` lines 354-365, `mingw_python_builder.py` lines 74-85):
reading it dereferences `self._deps_dir`, so on a class that never assigns
`_deps_dir` the property access raises `AttributeError`. -/
def mingw_cflags (clangDir mingwInstall : String) (depsDir : Option String) :
    Except PyError (List String) := do
  let d ← getattrOpt depsDir "_deps_dir"
  Except.ok
    ["-target x86_64-w64-mingw32",
     "--sysroot=" ++ mingwInstall,
     "-fstack-protector-strong",
     "-I" ++ pjoin (pjoin d "ffi") "include",
     "-nostdinc",
     "-I" ++ pjoin mingwInstall "include",
     "-I" ++ pjoin clangDir "lib/clang/15.0.4/include"]

/-- The `_ldflags` property shared by both MinGW builder variants
(`python_builder.py` lines 367-378, `mingw_python_builder.py` lines
87-98); its last element dereferences `self._deps_dir`. -/
def mingw_ldflags (mingwInstall : String) (depsDir : Option String) :
    Except PyError (List String) := do
  let d ← getattrOpt depsDir "_deps_dir"
  Except.ok
    ["--sysroot=" ++ mingwInstall,
     "-rtlib=compiler-rt",
     "-target x86_64-w64-mingw32",
     "-lucrt",
     "-lucrtbase",
     "-fuse-ld=lld",
     "-L" ++ pjoin (pjoin d "ffi") "lib"]

/-- The `_rcflags` property of both MinGW builder variants
(`python_builder.py` lines 380-382, `mingw_python_builder.py` lines
100-102). -/
def mingw_rcflags (mingwInstall : String) : List String :=
  ["-I" ++ mingwInstall ++ "/include"]

/-- Virtual members of `LinuxPythonBuilder` as resolved by Python's method
lookup: its `__init__` (`linux_python_builder.py` lines 25-38) assigns
`_gcc_toolchain_dir` but never `_clang_toolchain_dir`, so the inherited
`_cc`/`_cxx`/`_strip` and the base `_env` all raise `AttributeError`; its
overridden flag properties are literal lists. -/
def LinuxPythonBuilder.envVirtuals : EnvVirtuals :=
  { clang_toolchain_dir := Except.error (PyError.attrError "_clang_toolchain_dir")
    cc := Except.error (PyError.attrError "_clang_toolchain_dir")
    cxx := Except.error (PyError.attrError "_clang_toolchain_dir")
    strip := Except.error (PyError.attrError "_clang_toolchain_dir")
    cflags := Except.ok
      ["-D_FORTIFY_SOURCE=2 -O2", "-fPIC", "-fstack-protector-strong",
       "-Wno-unused-command-line-argument", "-s"]
    cxxflags := Except.ok
      ["-D_FORTIFY_SOURCE=2 -O2", "-fPIC", "-fstack-protector-strong",
       "-Wno-unused-command-line-argument", "-s"]
    ldflags := Except.ok
      ["-Wl,-rpath,\\$$ORIGIN/../lib", "-Wl,--as-needed", "-Wl,-z,relro", "-Wl,-z,now"]
    rcflags := Except.ok [] }

/-- Virtual members of `DarwinPythonBuilder`: `_cc`/`_cxx`/`_strip` are
overridden to fixed system paths (`darwin_python_builder.py` lines 31-42),
but the class never assigns `_clang_toolchain_dir` (so the base `_env`
fails at line 118 of `python_builder.py`) nor `_deps_dir` (so its
`_cflags`/`_ldflags` properties, lines 49-65, would also raise). -/
def DarwinPythonBuilder.envVirtuals : EnvVirtuals :=
  { clang_toolchain_dir := Except.error (PyError.attrError "_clang_toolchain_dir")
    cc := Except.ok "/usr/bin/clang"
    cxx := Except.ok "/usr/bin/clang++"
    strip := Except.ok "/usr/bin/strip"
    cflags := Except.error (PyError.attrError "_deps_dir")
    cxxflags := Except.error (PyError.attrError "_deps_dir")
    ldflags := Except.error (PyError.attrError "_deps_dir")
    rcflags := Except.ok [] }

/-- Virtual members of the `MinGWPythonBuilder` variant in
`python_builder.py` (the legacy specialised entry point's builder): its
`__init__` (lines 299-315) assigns `_clang_toolchain_dir`,
`_mingw_install_dir` and `_deps_dir`, so every property resolves. -/
def LegacyMinGWPythonBuilder.envVirtuals (repoRoot outDir triple : String) : EnvVirtuals :=
  let clangDir := mingw_clang_toolchain_dir repoRoot
  let mingwInstall := pjoin clangDir triple
  let depsDir := pjoin outDir "python-windows-deps"
  { clang_toolchain_dir := Except.ok clangDir
    cc := Except.ok (pjoin (pjoin clangDir "bin") "clang")
    cxx := Except.ok (pjoin (pjoin clangDir "bin") "clang++")
    strip := Except.ok (pjoin (pjoin clangDir "bin") "llvm-strip")
    cflags := mingw_cflags clangDir mingwInstall (some depsDir)
    cxxflags := mingw_cflags clangDir mingwInstall (some depsDir)
    ldflags := mingw_ldflags mingwInstall (some depsDir)
    rcflags := Except.ok (mingw_rcflags mingwInstall) }

/-- Embedding of the `_env` override of the `MinGWPythonBuilder` in
`mingw_python_builder.py` (lines 37-58): `_clang_toolchain_dir` is
assigned by its `__init__`, so the toolchain paths resolve, but the
dictionary literal evaluates `' '.join(self._cflags)` whose property reads
`self._deps_dir` — an attribute this class never assigns — so composing
the environment raises `AttributeError` there.  On success the overlay
would end with `LIBS = -lffi -lssl -lcrypto`. -/
def MinGWCliBuilder.env (repoRoot : String) (ambient : EnvMap) : Except PyError EnvMap := do
  let clangDir := mingw_clang_toolchain_dir repoRoot
  let binDir := pjoin clangDir "bin"
  let mingwInstall := pjoin clangDir "x86_64-w64-mingw32"
  let cflags ← mingw_cflags clangDir mingwInstall none
  let cxxflags ← mingw_cflags clangDir mingwInstall none
  let ldflags ← mingw_ldflags mingwInstall none
  Except.ok (envUpdate ambient
    [("CC", pjoin binDir "clang"), ("CXX", pjoin binDir "clang++"),
     ("WINDRES", pjoin binDir "llvm-windres"),
     ("AR", pjoin binDir "llvm-ar"),
     ("READELF", pjoin binDir "llvm-readelf"),
     ("LD", pjoin binDir "ld.lld"),
     ("DLLTOOL", pjoin binDir "llvm-dlltoo"),
     ("RANLIB", pjoin binDir "llvm-ranlib"),
     ("STRIP", pjoin binDir "llvm-strip"),
     ("CFLAGS", joinWords cflags),
     ("CXXFLAGS", joinWords cxxflags),
     ("LDFLAGS", joinWords ldflags),
     ("RCFLAGS", joinWords (mingw_rcflags mingwInstall)),
     ("CPPFLAGS", joinWords cflags),
     ("LIBS", "-lffi -lssl -lcrypto")])

/-- Keys the specification requires of every composed MinGW environment. -/
def mingwEnvKeys : List String :=
  ["CC", "CXX", "CFLAGS", "CXXFLAGS", "LDFLAGS", "CPPFLAGS", "LIBS",
   "RCFLAGS", "WINDRES", "AR", "READELF", "LD", "DLLTOOL", "RANLIB"]

/-- Check that every listed key is bound to a non-empty value. -/
def allKeysNonEmpty (m : EnvMap) (ks : List String) : Bool :=
  ks.all (fun k =>
    match envLookup m k with
    | some s => !(s == "")
    | none => false)

/-- Demonstration ambient process environment. -/
def demoAmbient : EnvMap := [("PATH", "/usr/bin"), ("HOME", "/root")]

/-- C4: environment composition does not succeed for every platform
builder.  For the Linux and Darwin builders the base `_env` raises
`AttributeError` on `_clang_toolchain_dir` (never assigned by those
classes), and for the CLI-dispatched MinGW builder its `_env` override
raises `AttributeError` on `_deps_dir`; only the legacy MinGW builder
variant composes an environment, and that one does bind every key listed
for MinGW to a non-empty string while leaving the copied ambient
environment's other keys intact (the composition overlays a fresh copy and
never writes back to `os.environ`). -/
theorem C4_env_composition :
    PythonBuilder.env_base LinuxPythonBuilder.envVirtuals demoAmbient =
        Except.error (PyError.attrError "_clang_toolchain_dir")
    ∧ PythonBuilder.env_base DarwinPythonBuilder.envVirtuals demoAmbient =
        Except.error (PyError.attrError "_clang_toolchain_dir")
    ∧ MinGWCliBuilder.env "/repo" demoAmbient =
        Except.error (PyError.attrError "_deps_dir")
    ∧ (PythonBuilder.env_base
          (LegacyMinGWPythonBuilder.envVirtuals "/repo" "/out" "x86_64-w64-mingw32")
          demoAmbient).toOption.map (fun m => allKeysNonEmpty m mingwEnvKeys) =
        some true
    ∧ (PythonBuilder.env_base
          (LegacyMinGWPythonBuilder.envVirtuals "/repo" "/out" "x86_64-w64-mingw32")
          demoAmbient).toOption.map (fun m => envLookup m "PATH") =
        some (some "/usr/bin") := by
  exact ⟨rfl, rfl, rfl, by decide, by decide⟩

/-- State of the shared source checkout as far as patching is concerned:
which sentinel marker files exist in it, whether the platform patch
directory exists, the file names the patch directory contains (unique, as
directory entries are), and the multiset — as a list — of patch
applications performed so far. -/
structure SrcState where
  markerFiles : List String
  patchDirExists : Bool
  patchDirFiles : List String
  applied : List String
deriving DecidableEq, Repr

/-- The per-class data `_apply_patches` reads: the `_patch_ignore_file`
attribute (absent on classes that never assign it, making the `hasattr`
guard false) and the `patches` name list. -/
structure PatcherCfg where
  markerFile : Option String
  patches : List String
deriving DecidableEq, Repr

/-- The guard of `_apply_patches`' first branch (`python_builder.py` line
153): `hasattr(self, '_patch_ignore_file') and self._patch_ignore_file.is_file()`. -/
def markerPresent (cfg : PatcherCfg) (s : SrcState) : Bool :=
  match cfg.markerFile with
  | some m => decide (m ∈ s.markerFiles)
  | none => false

/-- Modelled from the spec: the effect on the source checkout of
`git apply <patch>` for a platform patch file.  The patch files under
`.cid/patches/` are repository content not included under `src/`; per the
marker-file convention of spec section 3 (PatchSet) the applied platform
patch set establishes the platform's "already patched" sentinel marker
file in the source checkout, which is what gates re-application.  The
application itself is recorded in `applied`. -/
def gitApplyPatch (cfg : PatcherCfg) (s : SrcState) (p : String) : SrcState :=
  { s with
    applied := s.applied ++ [p]
    markerFiles :=
      match cfg.markerFile with
      | some m => if m ∈ s.markerFiles then s.markerFiles else m :: s.markerFiles
      | none => s.markerFiles }

/-- The `for patch in self._patch_dir.iterdir()` loop of `_apply_patches`
(`python_builder.py` lines 161-165): each directory entry whose name is in
`self.patches` is applied with `git apply`. -/
def apply_patches_loop (cfg : PatcherCfg) : SrcState → List String → SrcState
  | s, [] => s
  | s, f :: fs =>
      apply_patches_loop cfg (if f ∈ cfg.patches then gitApplyPatch cfg s f else s) fs

/-- Embedding of `PythonBuilder._apply_patches` (`python_builder.py` lines
152-165): when the marker file is present the method returns immediately
with only a warning; when the patch directory is absent it returns with
only a warning; otherwise it applies each matching patch file. -/
def apply_patches (cfg : PatcherCfg) (s : SrcState) : SrcState × List LogEvent :=
  if markerPresent cfg s then
    (s, [LogEvent.warning "Patches for Python have being applied, skip patching"])
  else if !s.patchDirExists then
    (s, [LogEvent.warning "Patches are not found, skip patching"])
  else
    (apply_patches_loop cfg s s.patchDirFiles,
     (s.patchDirFiles.filter (fun f => decide (f ∈ cfg.patches))).map
       (fun f => LogEvent.info ("Applying patch: " ++ f)))

/-- Patch configuration of `LinuxPythonBuilder`: marker
`linux_ignorefile.txt` (`linux_python_builder.py` line 32); `patches` stays
the class default `[]` (`python_builder.py` line 63). -/
def linuxPatcher : PatcherCfg := ⟨some "linux_ignorefile.txt", []⟩

/-- Patch configuration of `DarwinPythonBuilder`
(`darwin_python_builder.py` line 27); `patches` stays `[]`. -/
def darwinPatcher : PatcherCfg := ⟨some "darwin_ignorefile.txt", []⟩

/-- Patch configuration of the CLI-dispatched `MinGWPythonBuilder`
(`mingw_python_builder.py`): its `__init__` assigns neither
`_patch_ignore_file` nor `patches`, so the marker attribute is absent and
the patch list stays `[]`. -/
def mingwCliPatcher : PatcherCfg := ⟨none, []⟩

/-- Patch configuration of the `MinGWPythonBuilder` variant in
`python_builder.py` (lines 303, 311): one cpython-mingw patch, gated by
`mingw_ignorefile.txt`. -/
def legacyMinGWPatcher (version : String) : PatcherCfg :=
  ⟨some "mingw_ignorefile.txt", ["cpython_mingw_v" ++ version ++ ".patch"]⟩

/-- Applications recorded by the patch loop: the previous record extended
by the directory entries whose names match the patch list. -/
theorem apply_patches_loop_applied (cfg : PatcherCfg) (files : List String) (s : SrcState) :
    (apply_patches_loop cfg s files).applied =
      s.applied ++ files.filter (fun f => decide (f ∈ cfg.patches)) := by
  induction files generalizing s with
  | nil => simp [apply_patches_loop]
  | cons f fs ih =>
    by_cases h : f ∈ cfg.patches
    · simp [apply_patches_loop, h, ih, gitApplyPatch]
    · simp [apply_patches_loop, h, ih]

/-- After applying a patch the configured marker file is present. -/
theorem gitApplyPatch_marker (cfg : PatcherCfg) (s : SrcState) (p m : String)
    (hm : cfg.markerFile = some m) : m ∈ (gitApplyPatch cfg s p).markerFiles := by
  by_cases hmem : m ∈ s.markerFiles <;> simp [gitApplyPatch, hm, hmem]

/-- Membership of the configured marker after the patch loop: present
exactly when it already was, or at least one patch was applied. -/
theorem apply_patches_loop_marker (cfg : PatcherCfg) (m : String)
    (hm : cfg.markerFile = some m) (files : List String) (s : SrcState) :
    m ∈ (apply_patches_loop cfg s files).markerFiles ↔
      m ∈ s.markerFiles ∨ files.filter (fun f => decide (f ∈ cfg.patches)) ≠ [] := by
  induction files generalizing s with
  | nil => simp [apply_patches_loop]
  | cons f fs ih =>
    by_cases h : f ∈ cfg.patches
    · have hg := gitApplyPatch_marker cfg s f m hm
      have hgm : ∀ s2 : SrcState, m ∈ s2.markerFiles →
          m ∈ (apply_patches_loop cfg s2 fs).markerFiles := by
        intro s2 h2
        exact (ih s2).mpr (Or.inl h2)
      simp only [apply_patches_loop, h, if_pos, List.filter_cons]
      simp [h, hgm (gitApplyPatch cfg s f) hg]
    · simp [apply_patches_loop, h, ih]

/-- When no directory entry matches the patch list the loop is the
identity on the state. -/
theorem apply_patches_loop_id (cfg : PatcherCfg) (files : List String) (s : SrcState)
    (h : files.filter (fun f => decide (f ∈ cfg.patches)) = []) :
    apply_patches_loop cfg s files = s := by
  induction files generalizing s with
  | nil => simp [apply_patches_loop]
  | cons f fs ih =>
    rw [List.filter_cons] at h
    by_cases hf : f ∈ cfg.patches
    · simp [hf] at h
    · rw [if_neg (by simp [hf])] at h
      simp only [apply_patches_loop, if_neg hf]
      exact ih s h

/-- When the marker guard holds, `_apply_patches` changes nothing and only
warns. -/
theorem apply_patches_marker_noop (cfg : PatcherCfg) (s : SrcState)
    (h : markerPresent cfg s = true) :
    apply_patches cfg s =
      (s, [LogEvent.warning "Patches for Python have being applied, skip patching"]) := by
  simp [apply_patches, h]

/-- C5: for every platform builder's patch configuration and every source
checkout state (with its patch-directory entries unique, as directory
entries are), invoking `_apply_patches` twice in a row records each patch
file at most once more than before; and whenever the platform's marker
file exists, the step applies nothing — the state is unchanged — and only
emits the skip warning. -/
theorem C5_patch_idempotence (cfg : PatcherCfg) (s : SrcState) (p : String)
    (hcfg : cfg = linuxPatcher ∨ cfg = darwinPatcher ∨ cfg = mingwCliPatcher ∨
      ∃ v, cfg = legacyMinGWPatcher v)
    (hnd : s.patchDirFiles.Nodup) :
    ((apply_patches cfg (apply_patches cfg s).1).1.applied.count p ≤ s.applied.count p + 1)
    ∧ (∀ m, cfg.markerFile = some m → m ∈ s.markerFiles →
        apply_patches cfg s =
          (s, [LogEvent.warning "Patches for Python have being applied, skip patching"])) := by
  constructor
  · -- patch application happens at most once across the two runs
    have base : ∀ t : SrcState, t.applied.count p ≤ t.applied.count p + 1 :=
      fun t => Nat.le_succ _
    have patches_nil : cfg.patches = [] → (apply_patches cfg s).1 = s ∧
        (apply_patches cfg (apply_patches cfg s).1).1 = s := by
      intro h0
      have noop : ∀ t : SrcState, (apply_patches cfg t).1 = t := by
        intro t
        by_cases h1 : markerPresent cfg t = true
        · rw [apply_patches_marker_noop cfg t h1]
        · by_cases h2 : t.patchDirExists = true
          · have hfil : t.patchDirFiles.filter (fun f => decide (f ∈ cfg.patches)) = [] := by
              simp [h0]
            simp [apply_patches, h1, h2,
              apply_patches_loop_id cfg t.patchDirFiles t hfil]
          · simp [apply_patches, h1, h2]
      rw [noop s, noop s]
      exact ⟨rfl, rfl⟩
    rcases hcfg with h | h | h | ⟨v, h⟩
    · rcases patches_nil (by rw [h]; rfl) with ⟨_, h2⟩
      rw [h2]
      exact base s
    · rcases patches_nil (by rw [h]; rfl) with ⟨_, h2⟩
      rw [h2]
      exact base s
    · rcases patches_nil (by rw [h]; rfl) with ⟨_, h2⟩
      rw [h2]
      exact base s
    · -- legacy MinGW builder: one patch, gated by the mingw marker
      subst h
      set cfg := legacyMinGWPatcher v with hcfgdef
      have hm : cfg.markerFile = some "mingw_ignorefile.txt" := rfl
      by_cases h1 : markerPresent cfg s = true
      · have hs : (apply_patches cfg s).1 = s := by
          rw [apply_patches_marker_noop cfg s h1]
        rw [hs, hs]
        exact base s
      · by_cases h2 : s.patchDirExists = true
        · have hs1 : (apply_patches cfg s).1 = apply_patches_loop cfg s s.patchDirFiles := by
            simp [apply_patches, h1, h2]
          by_cases h3 : s.patchDirFiles.filter (fun f => decide (f ∈ cfg.patches)) = []
          · have hs2 : (apply_patches cfg s).1 = s := by
              rw [hs1, apply_patches_loop_id cfg s.patchDirFiles s h3]
            rw [hs2, hs2]
            exact base s
          · -- at least one patch applied: the marker now blocks the second run
            have hmarker : markerPresent cfg (apply_patches cfg s).1 = true := by
              rw [hs1]
              simp only [markerPresent, hm]
              rw [decide_eq_true_eq]
              exact (apply_patches_loop_marker cfg "mingw_ignorefile.txt" hm
                s.patchDirFiles s).mpr (Or.inr h3)
            have hfin : (apply_patches cfg (apply_patches cfg s).1).1 = (apply_patches cfg s).1 := by
              rw [apply_patches_marker_noop cfg (apply_patches cfg s).1 hmarker]
            rw [hfin, hs1, apply_patches_loop_applied cfg s.patchDirFiles s, List.count_append]
            have hle : (s.patchDirFiles.filter (fun f => decide (f ∈ cfg.patches))).count p ≤ 1 := by
              calc (s.patchDirFiles.filter (fun f => decide (f ∈ cfg.patches))).count p
                  ≤ s.patchDirFiles.count p :=
                    (List.filter_sublist s.patchDirFiles).count_le p
                _ ≤ 1 := List.nodup_iff_count_le_one.mp hnd p
            omega
        · have hs1 : (apply_patches cfg s).1 = s := by simp [apply_patches, h1, h2]
          rw [hs1, hs1]
          exact base s
  · intro m hmf hmem
    apply apply_patches_marker_noop
    simp [markerPresent, hmf, hmem]

/-- Witness for C5 at the legacy MinGW configuration, a marker-present
checkout and the concrete patch name. -/
theorem C5_patch_idempotence_witness :
    ((legacyMinGWPatcher "3.11.4" = linuxPatcher ∨
        legacyMinGWPatcher "3.11.4" = darwinPatcher ∨
        legacyMinGWPatcher "3.11.4" = mingwCliPatcher ∨
        ∃ v, legacyMinGWPatcher "3.11.4" = legacyMinGWPatcher v)
      ∧ (["cpython_mingw_v3.11.4.patch"] : List String).Nodup)
    ∧ (((apply_patches (legacyMinGWPatcher "3.11.4")
          (apply_patches (legacyMinGWPatcher "3.11.4")
            ⟨["mingw_ignorefile.txt"], true, ["cpython_mingw_v3.11.4.patch"], []⟩).1).1.applied.count
            "cpython_mingw_v3.11.4.patch"
          ≤ (⟨["mingw_ignorefile.txt"], true, ["cpython_mingw_v3.11.4.patch"], []⟩ : SrcState).applied.count
            "cpython_mingw_v3.11.4.patch" + 1)
        ∧ (∀ m, (legacyMinGWPatcher "3.11.4").markerFile = some m →
            m ∈ (⟨["mingw_ignorefile.txt"], true, ["cpython_mingw_v3.11.4.patch"], []⟩ : SrcState).markerFiles →
            apply_patches (legacyMinGWPatcher "3.11.4")
              ⟨["mingw_ignorefile.txt"], true, ["cpython_mingw_v3.11.4.patch"], []⟩ =
              (⟨["mingw_ignorefile.txt"], true, ["cpython_mingw_v3.11.4.patch"], []⟩,
               [LogEvent.warning "Patches for Python have being applied, skip patching"]))) :=
  ⟨⟨Or.inr (Or.inr (Or.inr ⟨"3.11.4", rfl⟩)), by decide⟩,
    C5_patch_idempotence (legacyMinGWPatcher "3.11.4")
      ⟨["mingw_ignorefile.txt"], true, ["cpython_mingw_v3.11.4.patch"], []⟩
      "cpython_mingw_v3.11.4.patch"
      (Or.inr (Or.inr (Or.inr ⟨"3.11.4", rfl⟩))) (by decide)⟩

end PyBuild
